import Mathlib

/-!
Verification of the UniProjectsManager submission platform.

This file gives a shallow embedding of the parts of the code that the
specification talks about: the join-code generator and validator
(`utils.py`, `models.py`), the `ProjectSubmission` save pipeline with its
pre/post-save signal receivers (`signals.py`, `models.py`), and the view
level operations (join, leave, submit, grade, collaborator mutation) from
`views.py` and `forms.py`.  Machine-level randomness
(`django.utils.crypto.get_random_string`) is modelled by an explicit
`pick : Nat → Nat` choice function; database tables are lists of records;
the process-wide `_submission_previous_state` dictionary is an association
list threaded through the save pipeline.
-/

namespace UniProjects

/-- ASCII character-level model of Python `str.upper`. -/
def pyUpperChar (c : Char) : Char :=
  if 'a' ≤ c && c ≤ 'z' then Char.ofNat (c.toNat - 32) else c

/-- Python whitespace recognised by `str.strip`. -/
def pyIsSpace (c : Char) : Bool :=
  c = ' ' || c = '\t' || c = '\n' || c = '\r' || c = '\x0b' || c = '\x0c'

/-- Model of Python `str.upper` on a whole string. -/
def pyUpper (s : String) : String :=
  String.mk (s.data.map pyUpperChar)

/-- Model of Python `str.strip`: drop whitespace from both ends. -/
def pyStrip (s : String) : String :=
  String.mk (((s.data.dropWhile pyIsSpace).reverse.dropWhile pyIsSpace).reverse)

/-- Model of `django.utils.crypto.get_random_string`: the character at
position `i` is drawn from `allowed_chars` by the choice function `pick`. -/
def get_random_string (length : Nat) (allowed_chars : String) (pick : Nat → Nat) : String :=
  String.mk ((List.range length).map
    (fun i => allowed_chars.data.getD (pick i % allowed_chars.data.length) 'A'))

namespace Models

/-- Model of `models.generate_join_code` (models.py line 53): the default for
`Classroom.join_code`.  Its alphabet is written in the source as
`ABCDEFGHJKLMNPQRSTUVWXYZ23456789`. -/
def generate_join_code (pick : Nat → Nat) : String :=
  get_random_string 8 "ABCDEFGHJKLMNPQRSTUVWXYZ23456789" pick

end Models

namespace Utils

/-- Model of `utils.generate_join_code` (utils.py line 16), always called at its
default `length=8`.  Its alphabet is written in the source as
`ABCDEFGHJKMNPQRSTUVWXYZ23456789`. -/
def generate_join_code (pick : Nat → Nat) : String :=
  get_random_string 8 "ABCDEFGHJKMNPQRSTUVWXYZ23456789" pick

/-- A character matched by the character class `[A-Z0-9]`. -/
def isUpperAlnum (c : Char) : Bool :=
  ('A' ≤ c && c ≤ 'Z') || ('0' ≤ c && c ≤ '9')

/-- Model of `utils.is_valid_join_code` (utils.py line 34): empty or wrong-length
codes are rejected, otherwise the uppercased code must match
`[A-Z0-9]{8}` anchored at both ends. -/
def is_valid_join_code (code : String) : Bool :=
  if code = "" || code.length != 8 then false
  else (code.data.map pyUpperChar).all isUpperAlnum

end Utils

/-- The function `List.getD` returns a list element or the default. -/
theorem getD_mem_or_eq (l : List Char) (n : Nat) (d : Char) :
    l.getD n d ∈ l ∨ l.getD n d = d := by
  induction l generalizing n with
  | nil => right; cases n <;> rfl
  | cons c t ih =>
    cases n with
    | zero => left; simp [List.getD]
    | succ n =>
      have h : (c :: t).getD (n + 1) d = t.getD n d := rfl
      rw [h]
      rcases ih n with hm | he
      · left; exact List.mem_cons_of_mem _ hm
      · right; exact he

/-- Every character produced by `get_random_string` lies in the allowed
alphabet, provided the fallback character does. -/
theorem get_random_string_chars (length : Nat) (allowed_chars : String) (pick : Nat → Nat)
    (hd : 'A' ∈ allowed_chars.data) :
    ∀ c ∈ (get_random_string length allowed_chars pick).data, c ∈ allowed_chars.data := by
  intro c hc
  simp only [get_random_string, List.mem_map] at hc
  obtain ⟨i, -, rfl⟩ := hc
  rcases getD_mem_or_eq allowed_chars.data (pick i % allowed_chars.data.length) 'A' with h | h
  · exact h
  · rw [h]; exact hd

/-- The function `get_random_string` returns exactly `length` characters. -/
theorem get_random_string_length (length : Nat) (allowed_chars : String) (pick : Nat → Nat) :
    (get_random_string length allowed_chars pick).length = length := by
  show ((List.range length).map _).length = length
  rw [List.length_map, List.length_range]

/-- The `utils.py` alphabet avoids all five ambiguous glyphs. -/
theorem utils_alphabet_unambiguous :
    ∀ c ∈ ("ABCDEFGHJKMNPQRSTUVWXYZ23456789" : String).data,
      ¬ c ∈ ['0', 'O', '1', 'I', 'L'] := by decide

/-- The `models.py` alphabet avoids 0, O, 1 and I (but not L). -/
theorem models_alphabet_no_digits_lookalikes :
    ∀ c ∈ ("ABCDEFGHJKLMNPQRSTUVWXYZ23456789" : String).data,
      ¬ c ∈ ['0', 'O', '1', 'I'] := by decide

/-- Every character of the `utils.py` alphabet is upper-case alphanumeric
and fixed by upper-casing. -/
theorem utils_alphabet_upper_alnum :
    ∀ c ∈ ("ABCDEFGHJKMNPQRSTUVWXYZ23456789" : String).data,
      Utils.isUpperAlnum (pyUpperChar c) = true := by decide

/-- C2 (counterexample).  The claim states that the generator used as the
Classroom model's default `join_code` draws from an alphabet excluding
0, O, 1, I and L.  The model-level generator's alphabet contains `L`
(position 10), so the choice function that always picks index 10 yields a
code made of `L`s. -/
theorem models_generate_join_code_emits_L :
    ¬ (∀ pick : Nat → Nat, ∀ c ∈ (Models.generate_join_code pick).data,
        ¬ c ∈ ['0', 'O', '1', 'I', 'L']) := by
  intro h
  have hL : 'L' ∈ (Models.generate_join_code (fun _ => 10)).data := by decide
  exact h (fun _ => 10) 'L' hL (by decide)

/-- C2 (amended).  Both generators return exactly 8 characters.  The
`utils.py` generator's alphabet excludes 0, O, 1, I and L; the `models.py`
generator used as the `Classroom.join_code` default excludes 0, O, 1 and I
but its alphabet does contain L. -/
theorem join_code_generator_alphabets (pick : Nat → Nat) :
    (Utils.generate_join_code pick).length = 8 ∧
    (∀ c ∈ (Utils.generate_join_code pick).data, ¬ c ∈ ['0', 'O', '1', 'I', 'L']) ∧
    (Models.generate_join_code pick).length = 8 ∧
    (∀ c ∈ (Models.generate_join_code pick).data, ¬ c ∈ ['0', 'O', '1', 'I']) ∧
    'L' ∈ ("ABCDEFGHJKLMNPQRSTUVWXYZ23456789" : String).data := by
  refine ⟨get_random_string_length _ _ _, ?_, get_random_string_length _ _ _, ?_, by decide⟩
  · intro c hc
    exact utils_alphabet_unambiguous c
      (get_random_string_chars 8 "ABCDEFGHJKMNPQRSTUVWXYZ23456789" pick (by decide) c hc)
  · intro c hc
    exact models_alphabet_no_digits_lookalikes c
      (get_random_string_chars 8 "ABCDEFGHJKLMNPQRSTUVWXYZ23456789" pick (by decide) c hc)

/-- C10.  The format validator accepts `"0O1IL2AB"`, a string made of the
glyphs the generator's alphabet excludes; it also accepts every code the
`utils.py` generator can produce, and `"0O1IL2AB"` is not producible, so
validation is strictly laxer than the set of generable codes. -/
theorem is_valid_join_code_laxer :
    Utils.is_valid_join_code "0O1IL2AB" = true ∧
    (∀ pick : Nat → Nat, Utils.is_valid_join_code (Utils.generate_join_code pick) = true) ∧
    (∀ pick : Nat → Nat, Utils.generate_join_code pick ≠ "0O1IL2AB") := by
  refine ⟨by decide, ?_, ?_⟩
  · intro pick
    have hlen : (Utils.generate_join_code pick).length = 8 :=
      get_random_string_length _ _ _
    have hne : Utils.generate_join_code pick ≠ "" := by
      intro h; rw [h] at hlen; exact absurd hlen (by decide)
    unfold Utils.is_valid_join_code
    rw [if_neg (by simp [hne, hlen])]
    rw [List.all_eq_true]
    intro c hc
    rw [List.mem_map] at hc
    obtain ⟨a, ha, rfl⟩ := hc
    exact utils_alphabet_upper_alnum a
      (get_random_string_chars 8 "ABCDEFGHJKMNPQRSTUVWXYZ23456789" pick (by decide) a ha)
  · intro pick h
    have hdata := congrArg String.data h
    have hr : List.range 8 = [0, 1, 2, 3, 4, 5, 6, 7] := rfl
    have hlit : ("0O1IL2AB" : String).data = ['0', 'O', '1', 'I', 'L', '2', 'A', 'B'] := rfl
    simp only [Utils.generate_join_code, get_random_string, hr, hlit, List.map_cons,
      List.map_nil, List.cons.injEq] at hdata
    have h0 : ("ABCDEFGHJKMNPQRSTUVWXYZ23456789" : String).data.getD
        (pick 0 % ("ABCDEFGHJKMNPQRSTUVWXYZ23456789" : String).data.length) 'A' = '0' :=
      hdata.1
    rcases getD_mem_or_eq ("ABCDEFGHJKMNPQRSTUVWXYZ23456789" : String).data
        (pick 0 % ("ABCDEFGHJKMNPQRSTUVWXYZ23456789" : String).data.length) 'A' with hm | he
    · rw [h0] at hm; revert hm; decide
    · rw [h0] at he; exact absurd he (by decide)

/-! ## Data model (models.py) -/

/-- Model of `Classroom` (models.py line 58): the fields the claims depend on. -/
structure Classroom where
  pk : Nat
  teacher : Nat
  join_code : String
  is_active : Bool
deriving DecidableEq

/-- Model of `ClassroomMembership` (models.py line 117): a (classroom, student) pair. -/
structure Membership where
  classroom : Nat
  student : Nat
deriving DecidableEq

/-- Model of `ProjectSubmission` (models.py line 153): the fields the claims depend
on.  `status` is the literal string stored in the `status` column
(`"DRAFT"` or `"SUBMITTED"`); `grade` is nullable; `submitted_at` is a
nullable timestamp. -/
structure Submission where
  pk : Nat
  classroom : Nat
  created_by : Nat
  collaborators : List Nat
  status : String
  grade : Option Int
  teacher_notes : String
  submitted_at : Option Nat
deriving DecidableEq

/-- The `_submission_previous_state` module-level dictionary of signals.py
line 82: primary key ↦ (previous status, previous grade). -/
abbrev PrevState := List (Nat × String × Option Int)

/-- Dictionary lookup in `_submission_previous_state`. -/
def lookupPrev (pk : Nat) (st : PrevState) : Option (String × Option Int) :=
  (st.find? (fun e => e.1 == pk)).map (fun e => e.2)

/-- Dictionary key removal, the effect of `dict.pop`. -/
def removePrev (pk : Nat) (st : PrevState) : PrevState :=
  st.filter (fun e => !(e.1 == pk))

/-- Dictionary assignment `_submission_previous_state[pk] = v`. -/
def insertPrev (pk : Nat) (v : String × Option Int) (st : PrevState) : PrevState :=
  (pk, v) :: removePrev pk st

/-- The relational store plus the process-wide previous-state dictionary. -/
structure DB where
  classrooms : List Classroom
  memberships : List Membership
  submissions : List Submission
  prevState : PrevState
deriving DecidableEq

/-- Model of the lookup `ProjectSubmission.objects.get(pk=pk)`. -/
def dbGet (db : DB) (pk : Nat) : Option Submission :=
  db.submissions.find? (fun s => s.pk == pk)

/-- The SQL write performed by `Model.save`: UPDATE the row carrying this
primary key when it exists, INSERT otherwise. -/
def putSubmission (subs : List Submission) (inst : Submission) : List Submission :=
  if subs.any (fun s => s.pk == inst.pk) then
    subs.map (fun s => if s.pk == inst.pk then inst else s)
  else subs ++ [inst]

/-- Model of `is_classroom_member` (models.py line 298): a membership row exists. -/
def is_classroom_member (db : DB) (classroom user : Nat) : Bool :=
  db.memberships.any (fun m => m.classroom == classroom && m.student == user)

/-- Model of `is_classroom_teacher` (models.py line 306) composed with the classroom
lookup the view performs: the classroom row exists and names this teacher. -/
def is_classroom_teacher (db : DB) (classroom user : Nat) : Bool :=
  match db.classrooms.find? (fun c => c.pk == classroom) with
  | some c => c.teacher == user
  | none => false

/-- Outbound notification requests produced by the post-save receivers. -/
inductive Event where
  | submissionNotification : Nat → Event
  | gradeNotification : Nat → Event
  | welcomeEmail : Nat → Event
deriving DecidableEq

/-- Model of `ProjectSubmission.save` (models.py line 238) before calling
`super().save()`: stamp `submitted_at` when status is SUBMITTED and the
timestamp is still null (`not self.submitted_at`). -/
def modelSave (inst : Submission) (now : Nat) : Submission :=
  if inst.status == "SUBMITTED" && inst.submitted_at == none then
    { inst with submitted_at := some now }
  else inst

/-- One full save of a `ProjectSubmission`: the model's `save` override,
the `pre_save` receiver `store_previous_submission_state` (signals.py
line 85), the SQL write, then the `post_save` receivers
`notify_on_submission` (line 102) and `notify_on_grade` (line 132) in
registration order.  `enabled` is `settings.ENABLE_EMAIL_NOTIFICATIONS`;
`now` is the wall-clock instant of the save.  Returns the new store and
the notifications fired. -/
def save_pipeline (enabled : Bool) (db : DB) (inst0 : Submission) (now : Nat) :
    DB × List Event :=
  let inst := modelSave inst0 now
  -- pre_save: store previous status and grade iff the row already exists
  let prevRow := dbGet db inst.pk
  let st1 : PrevState :=
    match prevRow with
    | some p => insertPrev inst.pk (p.status, p.grade) db.prevState
    | none => db.prevState
  let created := prevRow.isNone
  let subs1 := putSubmission db.submissions inst
  -- post_save receiver notify_on_submission
  let step1 : PrevState × List Event :=
    if enabled then
      let p := lookupPrev inst.pk st1
      let st2 := removePrev inst.pk st1
      let fire :=
        match p with
        | some pv => !(pv.1 == "SUBMITTED") && inst.status == "SUBMITTED"
        | none => false
      (st2, if fire then [Event.submissionNotification inst.pk] else [])
    else (st1, [])
  -- post_save receiver notify_on_grade
  let step2 : PrevState × List Event :=
    if enabled then
      if created then (step1.1, [])
      else
        let p := lookupPrev inst.pk step1.1
        let st3 := removePrev inst.pk step1.1
        let changed :=
          match p with
          | none => true
          | some pv => pv.2 == none || !(pv.2 == inst.grade)
        let grade_was_assigned := !(inst.grade == none) && changed
        let fire := grade_was_assigned && inst.status == "SUBMITTED"
        (st3, if fire then [Event.gradeNotification inst.pk] else [])
    else (step1.1, [])
  ({ db with submissions := subs1, prevState := step2.1 }, step1.2 ++ step2.2)

/-! ## View-level operations (views.py, forms.py) -/

/-- Model of `SubmissionSubmitView` (views.py line 629): `dispatch` resolves the
submission by primary key filtered to `created_by=request.user` and
`status='DRAFT'` (404 on no match, leaving the store untouched);
`form_valid` sets the status to SUBMITTED and saves.  The Bool component
reports success. -/
def submitSubmission (enabled : Bool) (db : DB) (pk actor now : Nat) :
    DB × Bool × List Event :=
  match dbGet db pk with
  | some sub =>
    if sub.created_by == actor && sub.status == "DRAFT" then
      let r := save_pipeline enabled db { sub with status := "SUBMITTED" } now
      (r.1, true, r.2)
    else (db, false, [])
  | none => (db, false, [])

/-- Model of `GradeSubmissionForm.clean_grade` (forms.py line 336): a missing grade
passes; a present grade must lie in [1, 20]. -/
def clean_grade (grade : Option Int) : Bool :=
  match grade with
  | none => true
  | some g => !(g < 1 || g > 20)

/-- Model of `GradeSubmissionView` (views.py line 755): the queryset restricts to
`classroom__teacher=request.user` and `status='SUBMITTED'` (404 on no
match); the form validates the grade and on success saves `grade` and
`teacher_notes`.  Failures leave the store untouched. -/
def gradeSubmission (enabled : Bool) (db : DB) (pk actor : Nat) (score : Option Int)
    (notes : String) (now : Nat) : DB × Bool × List Event :=
  match dbGet db pk with
  | some sub =>
    if is_classroom_teacher db sub.classroom actor && sub.status == "SUBMITTED" then
      if clean_grade score then
        let r := save_pipeline enabled db { sub with grade := score, teacher_notes := notes } now
        (r.1, true, r.2)
      else (db, false, [])
    else (db, false, [])
  | none => (db, false, [])

/-- Model of `ClassroomMembership.objects.create` followed by the `post_save`
receiver `notify_on_classroom_join` (signals.py line 167). -/
def createMembership (enabled : Bool) (db : DB) (classroom student : Nat) :
    DB × List Event :=
  ({ db with memberships := db.memberships ++ [⟨classroom, student⟩] },
   if enabled then [Event.welcomeEmail student] else [])

/-- Outcome of a join-code redemption. -/
inductive JoinResult where
  | success
  | invalidCode
  | inactive
deriving DecidableEq

/-- The normalisation `clean_join_code` applies: the form's `CharField`
strips the raw input, then the clean method upper-cases and strips. -/
def normalizeJoinCode (code : String) : String :=
  pyStrip (pyUpper (pyStrip code))

/-- Model of `JoinClassroomForm` (forms.py line 131) plus `JoinClassroomView.form_valid`
(views.py line 402): length-8 check on the stripped input, classroom lookup
by normalised code, active check, then idempotent membership creation. -/
def redeemJoinCode (enabled : Bool) (db : DB) (code : String) (user : Nat) :
    DB × JoinResult × List Event :=
  if (pyStrip code).length != 8 then (db, JoinResult.invalidCode, [])
  else
    match db.classrooms.find? (fun c => c.join_code == normalizeJoinCode code) with
    | none => (db, JoinResult.invalidCode, [])
    | some cl =>
      if !cl.is_active then (db, JoinResult.inactive, [])
      else if is_classroom_member db cl.pk user then
        -- already a member: warning message and redirect, no row created
        (db, JoinResult.success, [])
      else
        let r := createMembership enabled db cl.pk user
        (r.1, JoinResult.success, r.2)

/-- Model of `validate_collaborators` (signals.py line 27) wired into the m2m add:
Django first drops ids already present, fires `pre_add` with the remaining
set (skipping the check when it is empty), and the receiver rejects the
whole operation when any id is not a member of the submission's
classroom; only then are the rows inserted. -/
def addCollaborators (db : DB) (pk : Nat) (pk_set : List Nat) : DB × Bool :=
  match dbGet db pk with
  | none => (db, false)
  | some sub =>
    let newIds := pk_set.filter (fun u => !sub.collaborators.contains u)
    if newIds.isEmpty then (db, true)
    else
      let member_ids :=
        (db.memberships.filter (fun m => m.classroom == sub.classroom)).map
          (fun m => m.student)
      let invalid := newIds.filter (fun u => !member_ids.contains u)
      if !invalid.isEmpty then (db, false)
      else
        let sub' := { sub with collaborators := sub.collaborators ++ newIds }
        ({ db with submissions := putSubmission db.submissions sub' }, true)

/-- Model of `LeaveClassroomView.delete` (views.py line 435) and the `pre_delete`
receiver `prevent_membership_deletion_with_submission` (signals.py
line 58): the deletion is rejected when the student has a submission in
the classroom, otherwise the membership rows for the pair are removed. -/
def deleteMembership (db : DB) (classroom student : Nat) : DB × Bool :=
  if db.submissions.any (fun s => s.classroom == classroom && s.created_by == student) then
    (db, false)
  else
    ({ db with memberships :=
        db.memberships.filter (fun m => !(m.classroom == classroom && m.student == student)) },
     true)

/-- The repository's operations touch `submitted_at` only through
`ProjectSubmission.save`; a history of saves is a list of
(status written by the caller, wall-clock time) pairs applied in order. -/
def applySaves (s : Submission) (tr : List (String × Nat)) : Submission :=
  tr.foldl (fun acc p => modelSave { acc with status := p.1 } p.2) s

/-- The time of the first save in a history whose status is SUBMITTED. -/
def firstSubmitTime (tr : List (String × Nat)) : Option Nat :=
  (tr.find? (fun p => p.1 == "SUBMITTED")).map (fun p => p.2)

/-! ## Helper lemmas -/

theorem modelSave_pk (inst : Submission) (now : Nat) : (modelSave inst now).pk = inst.pk := by
  unfold modelSave; split <;> rfl

theorem modelSave_status (inst : Submission) (now : Nat) :
    (modelSave inst now).status = inst.status := by
  unfold modelSave; split <;> rfl

theorem modelSave_grade (inst : Submission) (now : Nat) :
    (modelSave inst now).grade = inst.grade := by
  unfold modelSave; split <;> rfl

theorem modelSave_submitted_at (inst : Submission) (now : Nat) :
    (modelSave inst now).submitted_at =
      if inst.status == "SUBMITTED" && inst.submitted_at == none then some now
      else inst.submitted_at := by
  unfold modelSave; split <;> simp_all

theorem dbGet_pk (db : DB) (pk : Nat) (sub : Submission) (h : dbGet db pk = some sub) :
    sub.pk = pk := by
  have := List.find?_some h
  simpa using this

theorem find?_replace (subs : List Submission) (inst : Submission)
    (h : subs.any (fun s => s.pk == inst.pk) = true) :
    (subs.map (fun s => if s.pk == inst.pk then inst else s)).find?
      (fun s => s.pk == inst.pk) = some inst := by
  induction subs with
  | nil => simp at h
  | cons x xs ih =>
    by_cases hx : (x.pk == inst.pk) = true
    · simp only [List.map_cons, hx, if_true]
      exact List.find?_cons_of_pos _ (by simp)
    · rw [Bool.not_eq_true] at hx
      simp only [List.map_cons, hx, Bool.false_eq_true, if_false]
      rw [List.find?_cons_of_neg _ (by simp [hx])]
      apply ih
      simp only [List.any_cons, hx, Bool.false_or] at h
      exact h

theorem find?_putSubmission (subs : List Submission) (inst : Submission) :
    (putSubmission subs inst).find? (fun s => s.pk == inst.pk) = some inst := by
  unfold putSubmission
  by_cases h : subs.any (fun s => s.pk == inst.pk) = true
  · rw [if_pos h]; exact find?_replace subs inst h
  · rw [Bool.not_eq_true] at h
    rw [if_neg (by simp [h])]
    rw [List.find?_append]
    have hnone : subs.find? (fun s => s.pk == inst.pk) = none := by
      rw [List.find?_eq_none]
      intro x hx hpx
      have : subs.any (fun s => s.pk == inst.pk) = true :=
        List.any_eq_true.mpr ⟨x, hx, hpx⟩
      rw [h] at this; exact Bool.false_ne_true this
    rw [hnone]
    simp [List.find?]

theorem dbGet_save_pipeline (enabled : Bool) (db : DB) (inst0 : Submission) (now : Nat) :
    dbGet (save_pipeline enabled db inst0 now).1 inst0.pk = some (modelSave inst0 now) := by
  show (putSubmission db.submissions (modelSave inst0 now)).find?
    (fun s => s.pk == inst0.pk) = some (modelSave inst0 now)
  rw [← modelSave_pk inst0 now]
  exact find?_putSubmission db.submissions (modelSave inst0 now)

theorem lookupPrev_insert_self (pk : Nat) (v : String × Option Int) (st : PrevState) :
    lookupPrev pk (insertPrev pk v st) = some v := by
  unfold lookupPrev insertPrev
  rw [List.find?_cons_of_pos _ (by simp)]
  rfl

/-! ## C3: submitted_at is written exactly once -/

/-- C3.  Across any history of saves, a null `submitted_at` is assigned at
the first save whose status is SUBMITTED (receiving that save's clock) and
an already-set `submitted_at` is never changed by any later save. -/
theorem submitted_at_set_once (s : Submission) (tr : List (String × Nat)) :
    (applySaves s tr).submitted_at =
      match s.submitted_at with
      | some t => some t
      | none => firstSubmitTime tr := by
  induction tr generalizing s with
  | nil =>
    cases h : s.submitted_at <;> simp [applySaves, firstSubmitTime, h]
  | cons p tr ih =>
    show (applySaves (modelSave { s with status := p.1 } p.2) tr).submitted_at = _
    rw [ih, modelSave_submitted_at]
    cases hs : s.submitted_at with
    | some t => simp
    | none =>
      by_cases hp : (p.1 == "SUBMITTED") = true
      · have h1 : firstSubmitTime (p :: tr) = some p.2 := by
          unfold firstSubmitTime
          rw [List.find?_cons_of_pos (p := fun q => q.1 == "SUBMITTED") tr hp]
          rfl
        rw [h1]
        simp [hp]
      · have h1 : firstSubmitTime (p :: tr) = firstSubmitTime tr := by
          unfold firstSubmitTime
          rw [List.find?_cons_of_neg (p := fun q => q.1 == "SUBMITTED") tr hp]
        rw [h1]
        simp [hp]

/-! ## C1: the duplicate grade-notification bug -/

/-- The failing input for C1: a submission that already carries grade 15. -/
def subC1 : Submission :=
  { pk := 1, classroom := 1, created_by := 2, collaborators := [],
    status := "SUBMITTED", grade := some 15, teacher_notes := "good", submitted_at := some 5 }

/-- A store holding `subC1`, its classroom (teacher 9) and the creator's
membership, with an empty previous-state dictionary. -/
def dbC1 : DB :=
  { classrooms := [{ pk := 1, teacher := 9, join_code := "ABCD2345", is_active := true }],
    memberships := [{ classroom := 1, student := 2 }],
    submissions := [subC1],
    prevState := [] }

/-- C1 (bug evaluation).  The stored grade of submission 1 is 15 and the
teacher re-grades with the identical score 15, yet the pipeline fires a
`SubmissionGraded` notification: `notify_on_submission` pops the
previous-state entry before `notify_on_grade` reads it, so the latter sees
no previous state and treats any non-null grade as newly assigned. -/
theorem duplicate_grade_notification_fires :
    dbGet dbC1 1 = some subC1 ∧
    subC1.grade = some 15 ∧
    (gradeSubmission true dbC1 1 9 (some 15) "good" 10).2.1 = true ∧
    (gradeSubmission true dbC1 1 9 (some 15) "good" 10).2.2 = [Event.gradeNotification 1] ∧
    (dbGet (gradeSubmission true dbC1 1 9 (some 15) "good" 10).1 1).map Submission.grade
      = some (some 15) := by
  decide

theorem lookupPrev_remove_self (pk : Nat) (st : PrevState) :
    lookupPrev pk (removePrev pk st) = none := by
  unfold lookupPrev removePrev
  have hfind : (st.filter (fun e => !(e.1 == pk))).find? (fun e => e.1 == pk) = none := by
    rw [List.find?_eq_none]
    intro e he hpe
    rw [List.mem_filter, hpe] at he
    simp at he
  rw [hfind]
  rfl

/-- With notifications enabled, a save of an existing row fires the
submission notification precisely when the stored status was not yet
SUBMITTED and the new one is, and fires the grade notification whenever
the new grade is non-null and the new status is SUBMITTED — the previous
grade plays no role, because `notify_on_submission` already popped the
previous-state entry. -/
theorem save_pipeline_events_exists (db : DB) (inst0 : Submission) (now : Nat)
    (prev : Submission) (hget : dbGet db inst0.pk = some prev) :
    (save_pipeline true db inst0 now).2 =
      (if !(prev.status == "SUBMITTED") && inst0.status == "SUBMITTED"
       then [Event.submissionNotification inst0.pk] else []) ++
      (if !(inst0.grade == none) && inst0.status == "SUBMITTED"
       then [Event.gradeNotification inst0.pk] else []) := by
  have hpk : (modelSave inst0 now).pk = inst0.pk := modelSave_pk inst0 now
  have hst : (modelSave inst0 now).status = inst0.status := modelSave_status inst0 now
  have hgr : (modelSave inst0 now).grade = inst0.grade := modelSave_grade inst0 now
  simp only [save_pipeline, hpk, hst, hgr, hget, lookupPrev_insert_self,
    lookupPrev_remove_self, Option.isNone_some, Bool.false_eq_true, if_true, if_false,
    Bool.true_and, Bool.and_true]

/-- With notifications enabled and no stale previous-state entry, a save
that inserts a new row fires no notification at all. -/
theorem save_pipeline_events_created (db : DB) (inst0 : Submission) (now : Nat)
    (hget : dbGet db inst0.pk = none)
    (hclean : lookupPrev inst0.pk db.prevState = none) :
    (save_pipeline true db inst0 now).2 = [] := by
  have hpk : (modelSave inst0 now).pk = inst0.pk := modelSave_pk inst0 now
  simp only [save_pipeline, hpk, hget, hclean, Option.isNone_none, if_true]
  rfl

/-! ## C9: submission notification fires only on a persisted transition -/

/-- C9.  With notifications enabled and no stale previous-state entry for
this primary key, a save fires `SubmissionSubmitted` iff the row already
existed with a persisted status other than SUBMITTED and the new status is
SUBMITTED.  In particular creating a submission — even directly in
SUBMITTED status — fires nothing. -/
theorem submission_notification_iff (db : DB) (inst0 : Submission) (now : Nat)
    (hclean : lookupPrev inst0.pk db.prevState = none) :
    Event.submissionNotification inst0.pk ∈ (save_pipeline true db inst0 now).2 ↔
      ∃ prev, dbGet db inst0.pk = some prev ∧ ¬ prev.status = "SUBMITTED" ∧
        inst0.status = "SUBMITTED" := by
  cases hget : dbGet db inst0.pk with
  | none =>
    rw [save_pipeline_events_created db inst0 now hget hclean]
    simp [hget]
  | some prev =>
    rw [save_pipeline_events_exists db inst0 now prev hget]
    constructor
    · intro hm
      rw [List.mem_append] at hm
      rcases hm with hm | hm
      · by_cases hc : (!(prev.status == "SUBMITTED") && inst0.status == "SUBMITTED") = true
        · rw [Bool.and_eq_true] at hc
          refine ⟨prev, rfl, ?_, ?_⟩
          · have := hc.1
            simp only [Bool.not_eq_true'] at this
            exact fun h => by rw [h] at this; simp at this
          · have := hc.2
            rwa [beq_iff_eq] at this
        · rw [if_neg hc] at hm
          simp at hm
      · by_cases hc : (!(inst0.grade == none) && inst0.status == "SUBMITTED") = true
        · rw [if_pos hc] at hm
          simp at hm
        · rw [if_neg hc] at hm
          simp at hm
    · rintro ⟨prev', hprev', h1, h2⟩
      injection hprev' with h
      subst h
      rw [List.mem_append]
      left
      rw [if_pos (by simp [h1, h2])]
      simp

/-! ## C4: the submit guard -/

/-- C4.  The submit operation succeeds iff the acting user is the
submission's creator and the status is DRAFT; on success the stored status
becomes SUBMITTED, and any failure (double submit, foreign draft, unknown
primary key) leaves the store untouched. -/
theorem submit_requires_creator_draft (enabled : Bool) (db : DB) (pk actor now : Nat) :
    ((submitSubmission enabled db pk actor now).2.1 = true ↔
      ∃ sub, dbGet db pk = some sub ∧ sub.created_by = actor ∧ sub.status = "DRAFT") ∧
    ((submitSubmission enabled db pk actor now).2.1 = true →
      (dbGet (submitSubmission enabled db pk actor now).1 pk).map Submission.status
        = some "SUBMITTED") ∧
    ((submitSubmission enabled db pk actor now).2.1 = false →
      (submitSubmission enabled db pk actor now).1 = db) := by
  unfold submitSubmission
  cases hget : dbGet db pk with
  | none =>
    dsimp only
    refine ⟨⟨fun h => Bool.noConfusion h, ?_⟩, fun h => Bool.noConfusion h, fun _ => rfl⟩
    rintro ⟨sub, hsub, -, -⟩
    exact Option.noConfusion hsub
  | some sub =>
    dsimp only
    by_cases hc : (sub.created_by == actor && sub.status == "DRAFT") = true
    · rw [if_pos hc]
      rw [Bool.and_eq_true, beq_iff_eq, beq_iff_eq] at hc
      refine ⟨⟨fun _ => ⟨sub, rfl, hc.1, hc.2⟩, fun _ => rfl⟩, fun _ => ?_,
        fun h => Bool.noConfusion h⟩
      have hpk : sub.pk = pk := dbGet_pk db pk sub hget
      have h2 : dbGet (save_pipeline enabled db { sub with status := "SUBMITTED" } now).1 sub.pk
          = some (modelSave { sub with status := "SUBMITTED" } now) :=
        dbGet_save_pipeline enabled db _ now
      rw [← hpk, h2]
      simp [modelSave_status]
    · rw [if_neg hc]
      refine ⟨⟨fun h => Bool.noConfusion h, ?_⟩, fun h => Bool.noConfusion h, fun _ => rfl⟩
      rintro ⟨sub', hsub', h1, h2⟩
      injection hsub' with h
      subst h
      exact (hc (by simp [h1, h2])).elim

/-! ## C5: the grading guard -/

/-- C5.  With an actual score supplied, grading succeeds iff the actor is
the classroom's teacher, the submission is SUBMITTED and the score lies in
[1, 20]; any failure — including an out-of-range score — leaves the store,
hence the stored grade and teacher notes, untouched. -/
theorem grade_requires_teacher_submitted_range (enabled : Bool) (db : DB) (pk actor : Nat)
    (s : Int) (notes : String) (now : Nat) :
    ((gradeSubmission enabled db pk actor (some s) notes now).2.1 = true ↔
      ∃ sub, dbGet db pk = some sub ∧ is_classroom_teacher db sub.classroom actor = true ∧
        sub.status = "SUBMITTED" ∧ 1 ≤ s ∧ s ≤ 20) ∧
    ((gradeSubmission enabled db pk actor (some s) notes now).2.1 = false →
      (gradeSubmission enabled db pk actor (some s) notes now).1 = db) := by
  unfold gradeSubmission
  cases hget : dbGet db pk with
  | none =>
    dsimp only
    refine ⟨⟨fun h => Bool.noConfusion h, ?_⟩, fun _ => rfl⟩
    rintro ⟨sub, hsub, -⟩
    exact Option.noConfusion hsub
  | some sub =>
    dsimp only
    by_cases hc : (is_classroom_teacher db sub.classroom actor && sub.status == "SUBMITTED") = true
    · rw [if_pos hc]
      rw [Bool.and_eq_true, beq_iff_eq] at hc
      by_cases hg : clean_grade (some s) = true
      · rw [if_pos hg]
        have hrange : 1 ≤ s ∧ s ≤ 20 := by
          simp only [clean_grade, Bool.not_eq_true', Bool.or_eq_false_iff,
            decide_eq_false_iff_not] at hg
          omega
        exact ⟨⟨fun _ => ⟨sub, rfl, hc.1, hc.2, hrange.1, hrange.2⟩, fun _ => rfl⟩,
          fun h => Bool.noConfusion h⟩
      · rw [if_neg hg]
        have hout : s < 1 ∨ s > 20 := by
          simp only [clean_grade, Bool.not_eq_true', Bool.or_eq_false_iff,
            decide_eq_false_iff_not] at hg
          omega
        refine ⟨⟨fun h => Bool.noConfusion h, ?_⟩, fun _ => rfl⟩
        rintro ⟨sub', hsub', -, -, hl, hr⟩
        omega
    · rw [if_neg hc]
      refine ⟨⟨fun h => Bool.noConfusion h, ?_⟩, fun _ => rfl⟩
      rintro ⟨sub', hsub', h1, h2, -⟩
      injection hsub' with h
      subst h
      exact (hc (by simp [h1, h2])).elim

/-! ## C8: the membership-deletion guard -/

/-- C8.  Removing a classroom membership for a student who has created a
submission in that classroom is rejected, and the membership row is still
present afterwards. -/
theorem membership_deletion_guard (db : DB) (c s : Nat)
    (hmem : is_classroom_member db c s = true)
    (hsub : db.submissions.any (fun x => x.classroom == c && x.created_by == s) = true) :
    (deleteMembership db c s).2 = false ∧ (deleteMembership db c s).1 = db ∧
    is_classroom_member (deleteMembership db c s).1 c s = true := by
  unfold deleteMembership
  rw [if_pos hsub]
  exact ⟨rfl, rfl, hmem⟩

/-! ## C7: collaborator validation -/

/-- A user outside the membership relation never appears in the id list the
`validate_collaborators` receiver builds. -/
theorem contains_student_filter (l : List Membership) (c u : Nat)
    (h : l.any (fun m => m.classroom == c && m.student == u) = false) :
    ((l.filter (fun m => m.classroom == c)).map (fun m => m.student)).contains u = false := by
  rcases hcon : ((l.filter (fun m => m.classroom == c)).map (fun m => m.student)).contains u with
    _ | _
  · exact hcon
  · exfalso
    have humem : u ∈ (l.filter (fun m => m.classroom == c)).map (fun m => m.student) := by
      rw [← List.elem_iff]
      exact hcon
    rw [List.mem_map] at humem
    obtain ⟨m, hmf, hstu⟩ := humem
    rw [List.mem_filter] at hmf
    have hany : l.any (fun m => m.classroom == c && m.student == u) = true := by
      refine List.any_eq_true.mpr ⟨m, hmf.1, ?_⟩
      rw [Bool.and_eq_true]
      refine ⟨hmf.2, ?_⟩
      rw [hstu]
      exact beq_self_eq_true u
    rw [h] at hany
    exact Bool.noConfusion hany

/-- C7.  If the store satisfies the maintained invariant that every current
collaborator is a classroom member, then adding any set of users containing
a non-member fails with a validation error and leaves the store — in
particular the collaborator set — entirely unchanged. -/
theorem collaborator_validation (db : DB) (pk : Nat) (pk_set : List Nat) (sub : Submission)
    (hget : dbGet db pk = some sub)
    (hcur : ∀ u ∈ sub.collaborators, is_classroom_member db sub.classroom u = true)
    (hbad : ∃ u ∈ pk_set, is_classroom_member db sub.classroom u = false) :
    (addCollaborators db pk pk_set).2 = false ∧ (addCollaborators db pk pk_set).1 = db := by
  unfold addCollaborators
  rw [hget]
  dsimp only
  obtain ⟨u, hu, hnm⟩ := hbad
  have hnc : sub.collaborators.contains u = false := by
    rcases hcon : sub.collaborators.contains u with _ | _
    · rfl
    · have humem : u ∈ sub.collaborators := by
        rw [← List.elem_iff]; exact hcon
      have := hcur u humem
      rw [hnm] at this
      exact Bool.noConfusion this
  have humem : u ∈ pk_set.filter (fun v => !sub.collaborators.contains v) :=
    List.mem_filter.mpr ⟨hu, by rw [hnc]; rfl⟩
  have hne : (pk_set.filter (fun v => !sub.collaborators.contains v)).isEmpty = false := by
    cases hfil : pk_set.filter (fun v => !sub.collaborators.contains v) with
    | nil => rw [hfil] at humem; exact absurd humem (by simp)
    | cons a t => rfl
  rw [if_neg (by rw [hne]; exact Bool.false_ne_true)]
  have hinv : u ∈ (pk_set.filter (fun v => !sub.collaborators.contains v)).filter
      (fun v => !((db.memberships.filter (fun m => m.classroom == sub.classroom)).map
        (fun m => m.student)).contains v) := by
    refine List.mem_filter.mpr ⟨humem, ?_⟩
    have hc0 : db.memberships.any
        (fun m => m.classroom == sub.classroom && m.student == u) = false := hnm
    rw [contains_student_filter db.memberships sub.classroom u hc0]
    rfl
  have hinvne : ((pk_set.filter (fun v => !sub.collaborators.contains v)).filter
      (fun v => !((db.memberships.filter (fun m => m.classroom == sub.classroom)).map
        (fun m => m.student)).contains v)).isEmpty = false := by
    cases hfil : (pk_set.filter (fun v => !sub.collaborators.contains v)).filter
        (fun v => !((db.memberships.filter (fun m => m.classroom == sub.classroom)).map
          (fun m => m.student)).contains v) with
    | nil => rw [hfil] at hinv; exact absurd hinv (by simp)
    | cons a t => rfl
  rw [if_pos (by rw [hinvne]; rfl)]
  exact ⟨rfl, rfl⟩

/-! ## C6: join-code redemption is idempotent -/

/-- Number of membership rows for a (classroom, student) pair. -/
def countMembership (db : DB) (c s : Nat) : Nat :=
  (db.memberships.filter (fun m => m.classroom == c && m.student == s)).length

theorem countMembership_pos_of_member (db : DB) (c s : Nat)
    (hm : is_classroom_member db c s = true) : 1 ≤ countMembership db c s := by
  unfold is_classroom_member at hm
  rw [List.any_eq_true] at hm
  obtain ⟨m, hmem, hp⟩ := hm
  have : m ∈ db.memberships.filter (fun m => m.classroom == c && m.student == s) :=
    List.mem_filter.mpr ⟨hmem, hp⟩
  exact List.length_pos_of_mem this

theorem countMembership_zero_of_not_member (db : DB) (c s : Nat)
    (hm : is_classroom_member db c s = false) : countMembership db c s = 0 := by
  unfold countMembership
  rw [List.length_eq_zero, List.filter_eq_nil_iff]
  intro m hmem hp
  unfold is_classroom_member at hm
  have : db.memberships.any (fun m => m.classroom == c && m.student == s) = true :=
    List.any_eq_true.mpr ⟨m, hmem, hp⟩
  rw [hm] at this
  exact Bool.noConfusion this

/-- Reduction of a redemption whose code resolves to an active classroom. -/
theorem redeemJoinCode_eq (enabled : Bool) (db : DB) (code : String) (user : Nat)
    (cl : Classroom) (hlen : (pyStrip code).length = 8)
    (hfind : db.classrooms.find? (fun c => c.join_code == normalizeJoinCode code) = some cl)
    (hactive : cl.is_active = true) :
    redeemJoinCode enabled db code user =
      if is_classroom_member db cl.pk user then (db, JoinResult.success, [])
      else ({ db with memberships := db.memberships ++ [⟨cl.pk, user⟩] }, JoinResult.success,
            if enabled then [Event.welcomeEmail user] else []) := by
  unfold redeemJoinCode createMembership
  rw [hlen]
  rw [if_neg (by decide)]
  rw [hfind]
  dsimp only
  rw [hactive]
  rw [if_neg (by decide)]

/-- C6.  Under the storage invariant that a (classroom, student) pair has at
most one membership row, a successful redemption leaves exactly one row for
the pair, and redeeming the same code again is a non-erroring no-op: it
reports success, creates no additional row, emits no event, and still
leaves exactly one row. -/
theorem redeem_join_code_idempotent (enabled : Bool) (db : DB) (code : String) (user : Nat)
    (cl : Classroom) (hlen : (pyStrip code).length = 8)
    (hfind : db.classrooms.find? (fun c => c.join_code == normalizeJoinCode code) = some cl)
    (hactive : cl.is_active = true)
    (hinv : countMembership db cl.pk user ≤ 1) :
    (redeemJoinCode enabled db code user).2.1 = JoinResult.success ∧
    countMembership (redeemJoinCode enabled db code user).1 cl.pk user = 1 ∧
    (redeemJoinCode enabled (redeemJoinCode enabled db code user).1 code user).2.1
      = JoinResult.success ∧
    (redeemJoinCode enabled (redeemJoinCode enabled db code user).1 code user).1.memberships
      = (redeemJoinCode enabled db code user).1.memberships ∧
    (redeemJoinCode enabled (redeemJoinCode enabled db code user).1 code user).2.2 = [] := by
  rw [redeemJoinCode_eq enabled db code user cl hlen hfind hactive]
  by_cases hm : is_classroom_member db cl.pk user = true
  · rw [if_pos hm]
    have hcount : countMembership db cl.pk user = 1 :=
      Nat.le_antisymm hinv (countMembership_pos_of_member db cl.pk user hm)
    rw [redeemJoinCode_eq enabled db code user cl hlen hfind hactive, if_pos hm]
    exact ⟨rfl, hcount, rfl, rfl, rfl⟩
  · rw [Bool.not_eq_true] at hm
    rw [if_neg (by rw [hm]; exact Bool.false_ne_true)]
    have hdb1 : countMembership
        { db with memberships := db.memberships ++ [⟨cl.pk, user⟩] } cl.pk user = 1 := by
      unfold countMembership
      dsimp only
      rw [List.filter_append, List.length_append]
      have h0 : countMembership db cl.pk user = 0 :=
        countMembership_zero_of_not_member db cl.pk user hm
      unfold countMembership at h0
      rw [h0]
      simp
    have hm1 : is_classroom_member
        { db with memberships := db.memberships ++ [⟨cl.pk, user⟩] } cl.pk user = true := by
      unfold is_classroom_member
      dsimp only
      rw [List.any_append]
      simp
    have hfind1 : ({ db with memberships := db.memberships ++ [⟨cl.pk, user⟩] } : DB).classrooms.find?
        (fun c => c.join_code == normalizeJoinCode code) = some cl := hfind
    rw [redeemJoinCode_eq enabled _ code user cl hlen hfind1 hactive, if_pos hm1]
    exact ⟨rfl, hdb1, rfl, rfl, rfl⟩

/-! ## Concrete witnesses -/

/-- A draft submission used to witness the notification theorem. -/
def subW9 : Submission :=
  { pk := 3, classroom := 1, created_by := 2, collaborators := [],
    status := "DRAFT", grade := none, teacher_notes := "", submitted_at := none }

/-- A store holding `subW9` with a clean previous-state dictionary. -/
def dbW9 : DB := { classrooms := [], memberships := [], submissions := [subW9], prevState := [] }

/-- Witness for C9: saving the draft with status SUBMITTED fires the
submission notification. -/
theorem submission_notification_iff_witness :
    Event.submissionNotification 3 ∈
      (save_pipeline true dbW9 { subW9 with status := "SUBMITTED" } 7).2 :=
  (submission_notification_iff dbW9 { subW9 with status := "SUBMITTED" } 7 rfl).mpr
    ⟨subW9, rfl, by decide, rfl⟩

/-- A draft submission in classroom 2 used to witness collaborator
validation. -/
def subW7 : Submission :=
  { pk := 4, classroom := 2, created_by := 5, collaborators := [],
    status := "DRAFT", grade := none, teacher_notes := "", submitted_at := none }

/-- A store where user 5 is classroom 2's only member. -/
def dbW7 : DB :=
  { classrooms := [], memberships := [⟨2, 5⟩], submissions := [subW7], prevState := [] }

/-- Witness for C7: adding non-member 6 as a collaborator fails and leaves
the store unchanged. -/
theorem collaborator_validation_witness :
    (addCollaborators dbW7 4 [6]).2 = false ∧ (addCollaborators dbW7 4 [6]).1 = dbW7 :=
  collaborator_validation dbW7 4 [6] subW7 rfl (by decide) ⟨6, by decide, rfl⟩

/-- Student 2's submission in classroom 1, blocking their leave. -/
def subW8 : Submission :=
  { pk := 9, classroom := 1, created_by := 2, collaborators := [],
    status := "DRAFT", grade := none, teacher_notes := "", submitted_at := none }

/-- A store where member 2 of classroom 1 has a submission there. -/
def dbW8 : DB :=
  { classrooms := [], memberships := [⟨1, 2⟩], submissions := [subW8], prevState := [] }

/-- Witness for C8: the membership of student 2 in classroom 1 cannot be
deleted while their submission exists. -/
theorem membership_deletion_guard_witness :
    (deleteMembership dbW8 1 2).2 = false ∧ (deleteMembership dbW8 1 2).1 = dbW8 ∧
    is_classroom_member (deleteMembership dbW8 1 2).1 1 2 = true :=
  membership_deletion_guard dbW8 1 2 (by decide) (by decide)

/-- An active classroom with join code ABCD2345 and no members. -/
def clW6 : Classroom := { pk := 7, teacher := 1, join_code := "ABCD2345", is_active := true }

/-- A store holding only `clW6`. -/
def dbW6 : DB := { classrooms := [clW6], memberships := [], submissions := [], prevState := [] }

/-- Witness for C6: student 5 redeems the (lower-cased) code twice; the
first redemption creates the single membership row, the second is a
successful no-op. -/
theorem redeem_join_code_idempotent_witness :
    (redeemJoinCode true dbW6 "abcd2345" 5).2.1 = JoinResult.success ∧
    countMembership (redeemJoinCode true dbW6 "abcd2345" 5).1 7 5 = 1 ∧
    (redeemJoinCode true (redeemJoinCode true dbW6 "abcd2345" 5).1 "abcd2345" 5).2.1
      = JoinResult.success ∧
    (redeemJoinCode true (redeemJoinCode true dbW6 "abcd2345" 5).1 "abcd2345" 5).1.memberships
      = (redeemJoinCode true dbW6 "abcd2345" 5).1.memberships ∧
    (redeemJoinCode true (redeemJoinCode true dbW6 "abcd2345" 5).1 "abcd2345" 5).2.2 = [] :=
  redeem_join_code_idempotent true dbW6 "abcd2345" 5 clW6 (by decide) (by decide) rfl
    (by decide)

end UniProjects
